import Mathlib

/-!
Verification development for the saferplaces-agent repository.

The Python sources are shallowly embedded: dictionaries become association
lists over an inductive value type, stateful code becomes explicit state
passing, fallible code returns `Option`, and the external collaborators
(language model, HTTP backend, filesystem) become oracle function
parameters.  Every definition is translated from the repository sources,
except for a handful that are explicitly marked `Modelled from the spec:`
because the corresponding file (notably the `BaseAgentTool` base class and
`merge_layer_registry`) is not part of the source snapshot.
-/

set_option maxHeartbeats 1000000

/-- Python/JSON-like values as produced by tool arguments, tool results and
`node_params` entries.  Dictionaries are embedded by content as ordered
association lists (Python dictionaries preserve insertion order). -/
inductive PVal : Type where
  | vnone : PVal
  | vint : Int → PVal
  | vstr : String → PVal
  | vbool : Bool → PVal
  | vlist : List PVal → PVal
  | vdict : List (String × PVal) → PVal

/-- Entries of a Python dictionary, in insertion order. -/
abbrev Entries := List (String × PVal)

/-- Python dictionary read `d[key]` / `d.get(key)`: value of the first
binding of `key`. -/
def lookupKey : Entries → String → Option PVal
  | [], _ => none
  | (k, v) :: rest, key => if k = key then some v else lookupKey rest key

/-- Python dictionary write `d[key] = v`: replaces the value of the first
binding of `key` keeping its position, or appends a new binding. -/
def setKey : Entries → String → PVal → Entries
  | [], key, v => [(key, v)]
  | (k, w) :: rest, key, v =>
      if k = key then (k, v) :: rest else (k, w) :: setKey rest key v

mutual

/-- `merge_dictionaries` from `src/saferplaces_agent/common/utils.py`
(content semantics): iterate over the right dictionary's items; a key
already present is combined with `mergeVals`, a new key is written. -/
def merge_dictionaries : Entries → Entries → Entries
  | left, [] => left
  | left, (key, value) :: rest =>
    match lookupKey left key with
    | some lv => merge_dictionaries (setKey left key (mergeVals lv value)) rest
    | none => merge_dictionaries (setKey left key value) rest
termination_by _ r => (sizeOf r, 1)
decreasing_by
  all_goals simp_wf
  all_goals exact Prod.Lex.left _ _ (by omega)

/-- Per-key combination of `merge_dictionaries`: two dictionaries with a
non-empty right side merge recursively, two lists concatenate, anything
else is overwritten by the right value (including an *empty* right
dictionary, because of the `len(value) > 0` guard in the source). -/
def mergeVals : PVal → PVal → PVal
  | PVal.vdict le, PVal.vdict re =>
      if 0 < re.length then PVal.vdict (merge_dictionaries le re) else PVal.vdict re
  | PVal.vlist xs, PVal.vlist ys => PVal.vlist (xs ++ ys)
  | _, v => v
termination_by _ v => (sizeOf v, 0)
decreasing_by
  all_goals simp_wf
  all_goals exact Prod.Lex.left _ _ (by omega)

end

theorem lookupKey_setKey_self (l : Entries) (k : String) (v : PVal) :
    lookupKey (setKey l k v) k = some v := by
  induction l with
  | nil => simp [setKey, lookupKey]
  | cons hd tl ih =>
      obtain ⟨k0, w⟩ := hd
      by_cases h : k0 = k
      · simp [setKey, h, lookupKey]
      · simp [setKey, h, lookupKey, ih]

theorem lookupKey_setKey_other (l : Entries) (k k' : String) (v : PVal)
    (h : k' ≠ k) : lookupKey (setKey l k' v) k = lookupKey l k := by
  induction l with
  | nil => simp [setKey, lookupKey, h]
  | cons hd tl ih =>
      obtain ⟨k0, w⟩ := hd
      by_cases h0 : k0 = k'
      · subst h0
        simp [setKey, lookupKey, h]
      · simp [setKey, h0, lookupKey, ih]

theorem lookupKey_merge_not_mem (r : Entries) (l : Entries) (k : String)
    (h : k ∉ r.map Prod.fst) :
    lookupKey (merge_dictionaries l r) k = lookupKey l k := by
  induction r generalizing l with
  | nil => simp [merge_dictionaries]
  | cons hd rest ih =>
      obtain ⟨k0, v0⟩ := hd
      simp only [List.map_cons, List.mem_cons] at h
      push_neg at h
      obtain ⟨hk0, hrest⟩ := h
      cases hl : lookupKey l k0 with
      | some lv =>
          rw [merge_dictionaries, hl, ih _ hrest,
            lookupKey_setKey_other _ _ _ _ (fun hc => hk0 hc.symm)]
      | none =>
          rw [merge_dictionaries, hl, ih _ hrest,
            lookupKey_setKey_other _ _ _ _ (fun hc => hk0 hc.symm)]

theorem lookupKey_merge_mem (r : Entries) (l : Entries) (k : String) (v : PVal)
    (hnd : (r.map Prod.fst).Nodup) (hmem : (k, v) ∈ r) :
    lookupKey (merge_dictionaries l r) k =
      some (match lookupKey l k with
            | some lv => mergeVals lv v
            | none => v) := by
  induction r generalizing l with
  | nil => cases hmem
  | cons hd rest ih =>
      obtain ⟨k0, v0⟩ := hd
      simp only [List.map_cons, List.nodup_cons] at hnd
      obtain ⟨hk0nr, hndrest⟩ := hnd
      rcases List.mem_cons.mp hmem with heq | hmemrest
      · obtain ⟨hk, hv⟩ := Prod.mk.injEq .. ▸ heq
        subst hk; subst hv
        have hknr : k ∉ rest.map Prod.fst := hk0nr
        cases hl : lookupKey l k with
        | some lv =>
            rw [merge_dictionaries, hl, lookupKey_merge_not_mem _ _ _ hknr,
              lookupKey_setKey_self]
        | none =>
            rw [merge_dictionaries, hl, lookupKey_merge_not_mem _ _ _ hknr,
              lookupKey_setKey_self]
      · have hkne : k0 ≠ k := by
          intro hc
          subst hc
          exact hk0nr (List.mem_map.mpr ⟨(k0, v), hmemrest, rfl⟩)
        cases hl : lookupKey l k0 with
        | some lv =>
            rw [merge_dictionaries, hl, ih _ hndrest hmemrest,
              lookupKey_setKey_other _ _ _ _ hkne]
        | none =>
            rw [merge_dictionaries, hl, ih _ hndrest hmemrest,
              lookupKey_setKey_other _ _ _ _ hkne]

/-- Heap values for the mutable-store model of `merge_dictionaries`:
identical to `PVal` except that a dictionary is a reference (an address)
into a store, so that in-place mutation and object identity are visible. -/
inductive HVal : Type where
  | hnone : HVal
  | hint : Int → HVal
  | hstr : String → HVal
  | hbool : Bool → HVal
  | hlist : List HVal → HVal
  | hdict : Nat → HVal

/-- Entries of one heap-allocated dictionary. -/
abbrev HEntries := List (String × HVal)

/-- The mutable store: address `a` holds the entry list of dictionary `a`. -/
abbrev Store := List HEntries

/-- Heap-dictionary read (same first-binding semantics as `lookupKey`). -/
def lookupHKey : HEntries → String → Option HVal
  | [], _ => none
  | (k, v) :: rest, key => if k = key then some v else lookupHKey rest key

/-- Heap-dictionary write (same semantics as `setKey`). -/
def setHKey : HEntries → String → HVal → HEntries
  | [], key, v => [(key, v)]
  | (k, w) :: rest, key, v =>
      if k = key then (k, v) :: rest else (k, w) :: setHKey rest key v

mutual

/-- `merge_dictionaries` from `src/saferplaces_agent/common/utils.py` once
more, now with the mutable heap explicit: the function mutates the store at
the left address and returns that same (unchanged) left address, mirroring
`return left` in the source.  `fuel` bounds recursion depth, since a store
with reference cycles would make the Python recursion diverge too. -/
def mergeHeap : Nat → Store → Nat → Nat → Option (Store × Nat)
  | 0, _, _, _ => none
  | fuel + 1, s, la, ra =>
    match s.get? ra with
    | none => none
    | some rentries =>
      match mergeHeapItems fuel s la rentries with
      | none => none
      | some s2 => some (s2, la)
termination_by fuel _ _ _ => (fuel, 0)
decreasing_by
  all_goals simp_wf
  all_goals exact Prod.Lex.left _ _ (by omega)

/-- One pass of the `for key, value in right.items()` loop of
`merge_dictionaries`, reading the left dictionary afresh from the store at
each iteration (as the Python attribute reads do). -/
def mergeHeapItems : Nat → Store → Nat → HEntries → Option Store
  | _, s, _, [] => some s
  | fuel, s, la, (key, value) :: rest =>
    match s.get? la with
    | none => none
    | some lentries =>
      match lookupHKey lentries key with
      | some lv =>
        match lv, value with
        | HVal.hdict da, HVal.hdict db =>
          match s.get? db with
          | none => none
          | some dbe =>
            if 0 < dbe.length then
              match mergeHeap fuel s da db with
              | none => none
              | some (s2, addr) =>
                match s2.get? la with
                | none => none
                | some lentries2 =>
                    mergeHeapItems fuel (s2.set la (setHKey lentries2 key (HVal.hdict addr))) la rest
            else
              mergeHeapItems fuel (s.set la (setHKey lentries key value)) la rest
        | HVal.hlist xs, HVal.hlist ys =>
            mergeHeapItems fuel (s.set la (setHKey lentries key (HVal.hlist (xs ++ ys)))) la rest
        | _, _ => mergeHeapItems fuel (s.set la (setHKey lentries key value)) la rest
      | none => mergeHeapItems fuel (s.set la (setHKey lentries key value)) la rest
termination_by fuel _ _ l => (fuel, l.length + 1)
decreasing_by
  all_goals simp_wf
  all_goals first
    | exact Prod.Lex.left _ _ (by omega)
    | exact Prod.Lex.right _ (by omega)

end

theorem mergeHeap_returns_left_address (fuel : Nat) (s : Store) (la ra : Nat)
    (out : Store × Nat) (h : mergeHeap fuel s la ra = some out) : out.2 = la := by
  cases fuel with
  | zero => simp [mergeHeap] at h
  | succ n =>
      rw [mergeHeap] at h
      split at h
      · exact absurd h (by simp)
      · split at h
        · exact absurd h (by simp)
        · simp only [Option.some.injEq] at h
          rw [← h]

/-- Layer descriptor, per the spec's data model for `layer_registry`:
title, description, source URI, type (vector or raster), metadata. -/
structure LayerDesc where
  title : String
  description : String
  src : String
  ltype : String
  metadata : Entries

/-- `src_layer_exists` from `agent/common/states.py`: whether some entry of
the registry has the given `src`. -/
def src_layer_exists (registry : List LayerDesc) (layerSrc : String) : Bool :=
  registry.any (fun layer => layer.src = layerSrc)

/-- Modelled from the spec: `merge_layer_registry`, the reducer annotated on
`layer_registry` in `agent/common/states.py` but absent from the source
snapshot.  Spec: "Deduplicated by source URI: a new layer is appended only
if no existing entry shares its `src`." -/
def merge_layer_registry (left right : List LayerDesc) : List LayerDesc :=
  right.foldl
    (fun acc layer => if src_layer_exists acc layer.src then acc else acc ++ [layer])
    left

/-- The `layer_registry` value placed under `updates` by
`SaferRainTool._execute` (`nodes/tools/saferplaces_api_tools/safer_rain_tool.py`,
success branch): the Python conditional expression evaluates to the whole
current registry plus the new water-depth layer when its `src` is new, and
to the empty list otherwise. -/
def saferRainRegistryUpdate (registry : List LayerDesc) (newLayer : LayerDesc) :
    List LayerDesc :=
  if src_layer_exists registry newLayer.src then []
  else registry ++ [newLayer]

/-- A proposed tool call as carried by an assistant message: the declared
tool name and its argument mapping. -/
structure ToolCallRec where
  name : String
  args : Entries

/-- Tool-call truncation performed by `chatbot`
(`agent/nodes/chatbot.py`, "get the first tool call, discard others"):
`tool_call = ai_message.tool_calls[0]; ai_message.tool_calls = [tool_call]`. -/
def chatbotKeptToolCalls (toolCalls : List ToolCallRec) : List ToolCallRec :=
  match toolCalls with
  | [] => []
  | call :: _ => [call]

/-- The pending tool call acted on by `tool_handler_template`
(`agent/nodes/base/base_tool_handler_node.py`):
`tool_call = tool_message.tool_calls[-1]`, i.e. the last element. -/
def handlerSelectedToolCall (toolCalls : List ToolCallRec) : Option ToolCallRec :=
  toolCalls.getLast?

/-- Tool names registered in `tools_map` in `agent/nodes/chatbot.py`, in
registration order (the commented-out registrations are not included). -/
def registeredToolNames : List String :=
  ["digital_twin_tool", "safer_rain_tool", "saferbuildings_tool",
   "icon2i_retriever_tool", "dpc_retriever_tool", "geospatial_ops_tool"]

/-- `set_tool_choice` from `agent/nodes/chatbot.py`, abstracted to the list
of tool names bound to the model: `None` binds no tools, the empty list
binds every registered tool, and otherwise the named tools that exist in
the registry are bound. -/
def set_tool_choice (toolChoice : Option (List String)) : List String :=
  match toolChoice with
  | none => []
  | some [] => registeredToolNames
  | some names => names.filter (fun n => registeredToolNames.contains n)

/-- The `area` argument of the select-DTM tool: absent (`None`), a place
name, or a bounding-box coordinate list.  Coordinates are rationals, an
exact model of the decimal arithmetic the source performs on floats. -/
inductive AreaV : Type where
  | anone : AreaV
  | aname : String → AreaV
  | acoords : List ℚ → AreaV
deriving DecidableEq

/-- Argument mapping of `CreateProjectSelectDTMTool.InputSchema`. -/
structure SelectDTMArgs where
  area : AreaV
  crs : Option String
  dtm_file : Option String
deriving DecidableEq

/-- `floor_decimals` from `common/utils.py`:
`math.floor(number * 10 ** decimals) / 10 ** decimals`. -/
def floor_decimals (q : ℚ) (decimals : Nat) : ℚ :=
  (Int.floor (q * (10 : ℚ) ^ decimals) : ℚ) / (10 : ℚ) ^ decimals

/-- `ceil_decimals` from `common/utils.py`:
`math.ceil(number * 10 ** decimals) / 10 ** decimals`. -/
def ceil_decimals (q : ℚ) (decimals : Nat) : ℚ :=
  (Int.ceil (q * (10 : ℚ) ^ decimals) : ℚ) / (10 : ℚ) ^ decimals

/-- `round_bounding_box` inside
`CreateProjectSelectDTMTool._set_args_inference_rules`: a coordinate list
is rounded outward (`floor` on min coordinates, `ceil` on max coordinates)
at `precision = 1` decimal and rebuilt from indices 0..3; indexing raises
on shorter lists (modelled as `none`); non-list values pass through. -/
def round_bounding_box : AreaV → Option AreaV
  | AreaV.acoords xs =>
    match xs with
    | x0 :: x1 :: x2 :: x3 :: _ =>
        some (AreaV.acoords [floor_decimals x0 1, floor_decimals x1 1,
                             ceil_decimals x2 1, ceil_decimals x3 1])
    | _ => none
  | a => some a

/-- `infer_area` of the select-DTM tool: a string area is resolved through
`ask_llm` (oracle `llmArea`) by `bounding_box_from_location_name`, which
also flips `execution_confirmed` to `False`; the result is then rounded.
Returns the new area together with whether the flag was flipped. -/
def selectDTMInferArea (llmArea : String → AreaV) (args : SelectDTMArgs) :
    Option (AreaV × Bool) :=
  match args.area with
  | AreaV.aname s =>
      match round_bounding_box (llmArea s) with
      | some a => some (a, true)
      | none => none
  | a =>
      match round_bounding_box a with
      | some a2 => some (a2, false)
      | none => none

/-- The select-DTM inference pass: the tool's inference-rule mapping has a
single entry, `'area': infer_area`. -/
def selectDTMInfer (llmArea : String → AreaV) (args : SelectDTMArgs) :
    Option (SelectDTMArgs × Bool) :=
  match selectDTMInferArea llmArea args with
  | some (a, flipped) => some ({ args with area := a }, flipped)
  | none => none

/-- Rendering of an area value inside validation messages (abstraction of
the Python f-string interpolation). -/
def pyReprArea : AreaV → String
  | AreaV.anone => "None"
  | AreaV.aname s => s
  | AreaV.acoords xs => "[" ++ ", ".intercalate (xs.map toString) ++ "]"

/-- The `'EPSG' in ka['crs']` substring test of the crs validation rule. -/
def containsEPSG (s : String) : Bool := 1 < (s.splitOn "EPSG").length

/-- `CreateProjectSelectDTMTool._set_args_validation_rules`: the six rules,
listed in source order (the `area` rules, then `crs`, then `dtm_file`, per
the insertion order of the rules dictionary; each field's list in order).
`isfile` is the `os.path.isfile` oracle. -/
def selectDTMValidationRules (isfile : String → Bool) (ka : SelectDTMArgs) :
    List (Option String) :=
  [ (match ka.area with
     | AreaV.acoords xs =>
        if xs.length ≠ 4 then
          some ("Invalid area coordinates: " ++ pyReprArea ka.area ++
            ". It should be a list of 4 float values representing the bounding box [min_x, min_y, max_x, max_y].")
        else none
     | _ => none),
    (if ka.dtm_file = none ∧ ka.area = AreaV.anone then
       some "Area cordinates or name (and relative output CRS) must be provided if dtm_file is not specified."
     else none),
    (match ka.crs with
     | some c =>
        if ¬ containsEPSG c then
          some ("Invalid CRS: " ++ c ++ ". It should be a valid EPSG code or None.")
        else none
     | none => none),
    (if ka.dtm_file = none ∧ ka.area ≠ AreaV.anone ∧ ka.crs = none then
       some "CRS must be provided if area is specified as a list of coordinates."
     else none),
    (match ka.dtm_file with
     | some d =>
        if ¬ (isfile d ∨ d.startsWith "s3://") then
          some ("Invalid DTM file path: " ++ d ++ ". It should be a valid file path or None.")
        else none
     | none => none),
    (if ka.dtm_file = none ∧ ka.area = AreaV.anone then
       some "DTM file must be provided if area is not specified."
     else none) ]

/-- First non-`None` validation message: rule families are walked in field
(dictionary insertion) order, each field's rules in list order; the first
failure aborts the call. -/
def firstRuleError (rules : List (Option String)) : Option String :=
  match rules with
  | [] => none
  | some msg :: _ => some msg
  | none :: rest => firstRuleError rest

/-- Full select-DTM validation pass. -/
def selectDTMValidate (isfile : String → Bool) (ka : SelectDTMArgs) :
    Option String :=
  firstRuleError (selectDTMValidationRules isfile ka)

/-- Events recorded during one `invoke` of an Agent Tool. -/
inductive ToolEvent : Type where
  | inferenceRun
  | validationRun
  | executeRun
  | onToolEndRun
deriving DecidableEq

/-- Terminal outcome of one Agent Tool `invoke`. -/
inductive ToolOutcome (Res : Type) : Type where
  | fatalError
  | validationError (msg : String)
  | interrupt (interruptType : String)
  | success (result : Res)

/-- Result of one `invoke`: the outcome, the confirmation flags as observed
immediately after the call returns or raises, and the event trace. -/
structure ToolCallResult (Res : Type) where
  outcome : ToolOutcome Res
  execution_confirmed : Bool
  output_confirmed : Bool
  events : List ToolEvent

/-- Modelled from the spec: the per-tool data of the `BaseAgentTool` state
machine (§4.2), whose defining file is absent from the source snapshot
(only subclasses and callers are under `src/`).  `infer` returns the
resolved arguments plus whether inference flipped `execution_confirmed` to
`False` (`none` models a raising resolver); `onToolEndExec`/`onToolEndOut`
are the values the tool's `_on_tool_end` assigns to the two flags. -/
structure AgentToolModel (Args Res : Type) where
  infer : Args → Option (Args × Bool)
  validate : Args → Option String
  execute : Args → Res
  onToolEndExec : Bool
  onToolEndOut : Bool

/-- Modelled from the spec: `BaseAgentTool.invoke` (§4.2): resolve
(inference) → validate → execution-confirmation gate → execute →
output-confirmation gate, with the `_on_tool_end` reset run exactly once at
every terminal outcome (error, success, or interrupt raised). -/
def invokeTool {Args Res : Type} (t : AgentToolModel Args Res)
    (execConfirmed outConfirmed : Bool) (args : Args) : ToolCallResult Res :=
  match t.infer args with
  | none =>
      { outcome := ToolOutcome.fatalError
        execution_confirmed := t.onToolEndExec
        output_confirmed := t.onToolEndOut
        events := [ToolEvent.inferenceRun, ToolEvent.onToolEndRun] }
  | some (rargs, flipped) =>
      let exec1 := execConfirmed && !flipped
      match t.validate rargs with
      | some msg =>
          { outcome := ToolOutcome.validationError msg
            execution_confirmed := t.onToolEndExec
            output_confirmed := t.onToolEndOut
            events := [ToolEvent.inferenceRun, ToolEvent.validationRun,
                       ToolEvent.onToolEndRun] }
      | none =>
          if exec1 = false then
            { outcome := ToolOutcome.interrupt "execution_confirmation"
              execution_confirmed := t.onToolEndExec
              output_confirmed := t.onToolEndOut
              events := [ToolEvent.inferenceRun, ToolEvent.validationRun,
                         ToolEvent.onToolEndRun] }
          else
            let r := t.execute rargs
            if outConfirmed = false then
              { outcome := ToolOutcome.interrupt "output_confirmation"
                execution_confirmed := t.onToolEndExec
                output_confirmed := t.onToolEndOut
                events := [ToolEvent.inferenceRun, ToolEvent.validationRun,
                           ToolEvent.executeRun, ToolEvent.onToolEndRun] }
            else
              { outcome := ToolOutcome.success r
                execution_confirmed := t.onToolEndExec
                output_confirmed := t.onToolEndOut
                events := [ToolEvent.inferenceRun, ToolEvent.validationRun,
                           ToolEvent.executeRun, ToolEvent.onToolEndRun] }

/-- `CreateProjectSelectDTMTool` assembled: inference and validation as
embedded above, `_execute` returning the fixed
`{"dtm_project_file": "s3://saferplaces-projects/fake_dtm_project_file.geotiff"}`,
and `_on_tool_end` setting `execution_confirmed = False`,
`output_confirmed = True` (source lines 152-154). -/
def selectDTMToolModel (llmArea : String → AreaV) (isfile : String → Bool) :
    AgentToolModel SelectDTMArgs Entries :=
  { infer := selectDTMInfer llmArea
    validate := selectDTMValidate isfile
    execute := fun _ =>
      [("dtm_project_file", PVal.vstr "s3://saferplaces-projects/fake_dtm_project_file.geotiff")]
    onToolEndExec := false
    onToolEndOut := true }

/-- Argument mapping of `GeospatialOpsInputSchema`. -/
structure GeospatialOpsArgs where
  prompt : String
  output_layer : Option String

/-- `justfname` from `common/utils.py`, content level: the basename of the
forward-slash-normalized path. -/
def justfname (p : String) : String :=
  match ((p.replace "\\" "/").splitOn "/").getLast? with
  | some s => s
  | none => p

/-- `infer_output_layer` of `GeospatialOpsTool`: a missing output layer is
proposed by `ask_llm` (oracle `llmLayer`, `none` when the model answers
`None`), stripped and namespaced under the user's bucket folder; a supplied
name outside the two accepted bucket prefixes is reduced to its basename
and namespaced; accepted bucket URIs pass through. -/
def inferOutputLayer (llmLayer : String → Option String) (userId : String)
    (args : GeospatialOpsArgs) : Option String :=
  match args.output_layer with
  | none =>
      match llmLayer args.prompt with
      | none => none
      | some name =>
          some ("s3://saferplaces.co/SaferPlaces-Agent/dev/user==" ++ userId ++ "/"
            ++ name.trim)
  | some ol =>
      if ol.startsWith "s3://saferplaces.co/"
          || ol.startsWith "https://s3.us-east-1.amazonaws.com/saferplaces.co/" then
        some ol
      else
        some ("s3://saferplaces.co/SaferPlaces-Agent/dev/user==" ++ userId ++ "/"
          ++ justfname ol)

/-- `GeospatialOpsTool` assembled: no validation rules (empty dict), the
single `output_layer` inference rule, `_execute` producing
`{"generated_code": ...}` via a code-generation model call (oracle
`codegen`), and `_on_tool_end` setting `execution_confirmed = True`,
`output_confirmed = False` (source lines 247-249). -/
def geospatialOpsToolModel (llmLayer : String → Option String)
    (userId : String) (codegen : String → String) :
    AgentToolModel GeospatialOpsArgs Entries :=
  { infer := fun a =>
      some ({ a with output_layer := inferOutputLayer llmLayer userId a }, false)
    validate := fun _ => none
    execute := fun a => [("generated_code", PVal.vstr (codegen a.prompt))]
    onToolEndExec := true
    onToolEndOut := false }

/-- Argument mapping of `SaferRainInputSchema` (rain is a raster reference
or a constant, kept as a `PVal`). -/
structure SaferRainArgs where
  dem : String
  rain : PVal
  water : Option String
  band : Int
  to_band : Int
  t_srs : Option String
  mode : String

/-- `infer_water` from `SaferRainTool._set_args_inference_rules`: the
result is always `f"{s3_utils._BASE_BUCKET}/saferrain-out/{water}"`.  When
`water` is `None` (the key is present and bound to `None`, as the schema
defaults it), the Python `kwargs.get('water', ...)` returns `None` and the
f-string interpolates the text `None`.  `baseBucket` stands for
`s3_utils._BASE_BUCKET` (the `s3_utils` module is absent from the source
snapshot, the constant is opaque here). -/
def saferRainInferWater (baseBucket : String) (args : SaferRainArgs) : String :=
  match args.water with
  | some w => baseBucket ++ "/saferrain-out/" ++ w
  | none => baseBucket ++ "/saferrain-out/" ++ "None"

/-- `infer_mode` from `SaferRainTool._set_args_inference_rules`: "It forces
the mode to 'lambda' for now." -/
def saferRainInferMode (_ : SaferRainArgs) : String := "lambda"

/-- The safer-rain inference pass: rules `{'water': infer_water,
'mode': infer_mode}` applied to the argument mapping. -/
def saferRainInfer (baseBucket : String) (args : SaferRainArgs) : SaferRainArgs :=
  { args with
    water := some (saferRainInferWater baseBucket args)
    mode := saferRainInferMode args }

/-- An HTTP response from the remote processing API: status code, raw text
body, and the JSON-decoded body — a flat string dictionary, `none` when
`.json()` would raise because the body is not valid JSON. -/
structure HttpResponseModel where
  status : Nat
  text : String
  jsonBody : Option (List (String × String))

/-- Flat string-dictionary association lookup (Python `'k' in d` / `d['k']`). -/
def lookupField : List (String × String) → String → Option String
  | [], _ => none
  | (k, v) :: rest, key => if k = key then some v else lookupField rest key

/-- Python `repr` of a flat string dictionary, as interpolated into the
"Unexpected response" message. -/
def pyReprStrDict (d : List (String × String)) : String :=
  "\x7b" ++ ", ".intercalate (d.map (fun kv => "'" ++ kv.1 ++ "': '" ++ kv.2 ++ "'")) ++ "\x7d"

/-- Observable outcome of `SaferRainTool._execute`: the `tool_response`
error or body, the `updates.messages` system-message contents, the
`updates.layer_registry` value, and the number of `requests.post` calls
issued during the execution. -/
structure SaferRainRunOutcome where
  toolResponseError : Option String
  toolResponseBody : Option (List (String × String))
  updateMessages : List String
  updateRegistry : Option (List LayerDesc)
  httpRequests : Nat

/-- `SaferRainTool._execute` from
`nodes/tools/saferplaces_api_tools/safer_rain_tool.py`, lines 214-263,
after the single `requests.post` call (`resp` is the response oracle).
Note the control flow of the source: the `status_code != 200` branch
*assigns* an error `tool_response` but does not return, so execution falls
through to `api_response = api_response.json()` — which raises on a
non-JSON body (`none` here) — and `tool_response` is then unconditionally
reassigned by the `water_depth_file` check. -/
def saferRainExecute (resp : HttpResponseModel) (registry : List LayerDesc)
    (inputsDesc : String) : Option SaferRainRunOutcome :=
  let _failAssignedThenClobbered : Option String :=
    if resp.status ≠ 200 then
      some ("Failed to execute Safer Rain API: " ++ toString resp.status ++ " - " ++ resp.text)
    else none
  match resp.jsonBody with
  | none => none
  | some body =>
    match lookupField body "water_depth_file" with
    | some wdf =>
        let newLayer : LayerDesc :=
          { title := "SaferRain Output"
            description := "SaferRain output file with flooding waterdepth from this inputs: (" ++ inputsDesc ++ ")"
            src := wdf
            ltype := "raster"
            metadata := [("nodata", PVal.vstr "nan"), ("colormap_name", PVal.vstr "blues")] }
        some { toolResponseError := none
               toolResponseBody := some body
               updateMessages := []
               updateRegistry := some (if src_layer_exists registry wdf then [] else registry ++ [newLayer])
               httpRequests := 1 }
    | none =>
        some { toolResponseError := some ("Unexpected response from Safer Rain API: " ++ pyReprStrDict body)
               toolResponseBody := none
               updateMessages := ["An error occurred while executing the Safer Rain tool. Explain the error to the user and then ask him if he wants to retry or not."]
               updateRegistry := none
               httpRequests := 1 }

theorem setKey_append_of_not_mem (l : Entries) (k : String) (v : PVal)
    (h : lookupKey l k = none) : setKey l k v = l ++ [(k, v)] := by
  induction l with
  | nil => simp [setKey]
  | cons hd tl ih =>
      obtain ⟨k0, w⟩ := hd
      by_cases h0 : k0 = k
      · simp [lookupKey, h0] at h
      · simp only [lookupKey, h0, if_false] at h
        simp [setKey, h0, ih h]

theorem lookup_merge_single_new (l : Entries) (k : String) (v : PVal)
    (h : lookupKey l k = none) :
    lookupKey (merge_dictionaries l [(k, v)]) k = some v := by
  have hm := lookupKey_merge_mem [(k, v)] l k v (by simp) (by simp)
  rw [hm, h]

theorem lookup_merge_single_dict (l : Entries) (k : String) (d e : Entries)
    (h : lookupKey l k = some (PVal.vdict d)) (he : e ≠ []) :
    lookupKey (merge_dictionaries l [(k, PVal.vdict e)]) k =
      some (PVal.vdict (merge_dictionaries d e)) := by
  have hm := lookupKey_merge_mem [(k, PVal.vdict e)] l k (PVal.vdict e)
    (by simp) (by simp)
  rw [hm, h]
  simp [mergeVals, List.length_pos.mpr he]

theorem lookup_merge_single_other (l : Entries) (k k' : String) (v : PVal)
    (h : k' ≠ k) :
    lookupKey (merge_dictionaries l [(k', v)]) k = lookupKey l k := by
  refine lookupKey_merge_not_mem [(k', v)] l k ?_
  intro hmem
  simp only [List.map_cons, List.map_nil, List.mem_singleton] at hmem
  exact h hmem.symm

theorem merge_into_singleton_dict (t : String) (d : Entries) (k2 : String)
    (v2 : PVal) :
    merge_dictionaries [(t, PVal.vdict d)] [(t, PVal.vdict [(k2, v2)])] =
      [(t, PVal.vdict (merge_dictionaries d [(k2, v2)]))] := by
  simp [merge_dictionaries, lookupKey, mergeVals, setKey]

theorem merge_append_new (d : Entries) (k : String) (v : PVal)
    (h : lookupKey d k = none) :
    merge_dictionaries d [(k, v)] = d ++ [(k, v)] := by
  rw [merge_dictionaries, h, merge_dictionaries, setKey_append_of_not_mem _ _ _ h]

/-- Node/tool name constants from `agent/common/names.py`. -/
def CREATE_PROJECT_MAIN : String := "create_project_main"

def CREATE_PROJECT_TOOL_HANDLER : String := "create_project_tool_handler"

def CREATE_PROJECT_SELECT_DTM_TOOL : String := "create_project_select_dtm_tool"

def CREATE_PROJECT_SELECT_BUILDINGS_TOOL : String := "create_project_select_buildings_tool"

def CREATE_PROJECT_SELECT_INFILTRATION_TOOL : String := "create_project_select_infiltration_tool"

def CREATE_PROJECT_SELECT_LITHOLOGY_TOOL : String := "create_project_select_lithology_tool"

def CREATE_PROJECT_SELECT_OTHER_LAYERS_TOOL : String := "create_project_select_other_layers_tool"

/-- Nodes of the create-project subgraph
(`nodes/subgraphs/create_project.py`). -/
inductive CPNode : Type where
  | mainNode
  | dtmRunner
  | buildingsRunner
  | infiltrationRunner
  | lithologyRunner
  | otherLayersRunner
  | toolHandler
  | finished
deriving DecidableEq

/-- Graph name of each node, as written into `next_node` directives. -/
def cpNodeName : CPNode → String
  | CPNode.mainNode => "create_project_main"
  | CPNode.dtmRunner => "create_project_select_dtm_tool_runner"
  | CPNode.buildingsRunner => "create_project_select_buildings_tool_runner"
  | CPNode.infiltrationRunner => "create_project_select_infiltration_tool_runner"
  | CPNode.lithologyRunner => "create_project_select_lithology_tool_runner"
  | CPNode.otherLayersRunner => "create_project_select_other_layers_tool_runner"
  | CPNode.toolHandler => "create_project_tool_handler"
  | CPNode.finished => "__end__"

/-- The `node_params` update written by every runner:
`{ create_project_tool_handler: { next_node: <next runner> } }`. -/
def handlerDirective (nextRunner : String) : Entries :=
  [(CREATE_PROJECT_TOOL_HANDLER, PVal.vdict [("next_node", PVal.vstr nextRunner)])]

/-- The `node_params` update produced by a runner's `on_handle_end`
callback inside the tool handler:
`{ create_project_main: { tool_outputs: { <tool>: <output> } } }`. -/
def mainStashUpdate (tool : String) (o : PVal) : Entries :=
  [(CREATE_PROJECT_MAIN,
    PVal.vdict [("tool_outputs", PVal.vdict [(tool, o)])])]

/-- State of the create-project subgraph walk: the current node, the
`node_params` channel, the pending tool call of the latest message, the
callback installed on `base_tool_handler_node_callback` by the latest
runner (stash key and next node), plus observation logs of the tools the
handler invoked and the tool results `create_project_main` emitted. -/
structure CPState where
  node : CPNode
  nodeParams : Entries
  pendingTool : Option String
  callbackStash : Option (String × CPNode)
  invoked : List String
  emitted : List PVal

/-- A `create_project_select_*_tool_runner` node: appends a tool-call
message for its tool (hence `pendingTool`), installs the handler callback
(stash under the tool's name, continue at `next`), writes the `next_node`
directive into `node_params[create_project_tool_handler]` (merged by the
`merge_dictionaries` reducer) and transfers control to the tool handler. -/
def runnerStep (st : CPState) (toolName : String) (next : CPNode) : CPState :=
  { st with
    node := CPNode.toolHandler
    pendingTool := some toolName
    callbackStash := some (toolName, next)
    nodeParams := merge_dictionaries st.nodeParams (handlerDirective (cpNodeName next)) }

/-- `tool_handler_template` under the create-project configuration: invoke
the pending tool (`outputs` oracle), run the installed callback — whose
`update` stashes the tool output under
`node_params[create_project_main].tool_outputs` (deep-merged by the
reducer) — and continue at the callback's `next_node`.  A missing pending
call or callback is a fatal routing error. -/
def handlerStep (outputs : String → PVal) (st : CPState) : CPState :=
  match st.pendingTool, st.callbackStash with
  | some toolName, some (stashKey, next) =>
      { st with
        node := next
        pendingTool := none
        invoked := st.invoked ++ [toolName]
        nodeParams := merge_dictionaries st.nodeParams
          (mainStashUpdate stashKey (outputs toolName)) }
  | _, _ => { st with node := CPNode.finished }

/-- `create_project_main`: when
`node_params[create_project_main].tool_outputs` is absent, pre-fill
`node_params` with the dict-valued entries of the auxiliary model reply
(`prefill` oracle) and go to the DTM runner; when present, emit the single
consolidated interface tool-result carrying the whole `tool_outputs`
mapping and terminate (the closing `node_params: dict()` update is merged
by the reducer, for which an empty right dictionary is a no-op). -/
def mainStep (prefill : Entries) (st : CPState) : CPState :=
  match lookupKey st.nodeParams CREATE_PROJECT_MAIN with
  | some (PVal.vdict mainParams) =>
      match lookupKey mainParams "tool_outputs" with
      | some outs =>
          { st with
            node := CPNode.finished
            emitted := st.emitted ++ [outs]
            nodeParams := merge_dictionaries st.nodeParams [] }
      | none =>
          { st with
            node := CPNode.dtmRunner
            nodeParams := merge_dictionaries st.nodeParams prefill }
  | _ =>
      { st with
        node := CPNode.dtmRunner
        nodeParams := merge_dictionaries st.nodeParams prefill }

/-- One step of the create-project subgraph walk, following the fixed
`next_node` chain DTM → Buildings → Infiltration → Lithology → OtherLayers
→ main of `nodes/subgraphs/create_project.py`. -/
def cpStep (prefill : Entries) (outputs : String → PVal) (st : CPState) : CPState :=
  match st.node with
  | CPNode.mainNode => mainStep prefill st
  | CPNode.dtmRunner =>
      runnerStep st CREATE_PROJECT_SELECT_DTM_TOOL CPNode.buildingsRunner
  | CPNode.buildingsRunner =>
      runnerStep st CREATE_PROJECT_SELECT_BUILDINGS_TOOL CPNode.infiltrationRunner
  | CPNode.infiltrationRunner =>
      runnerStep st CREATE_PROJECT_SELECT_INFILTRATION_TOOL CPNode.lithologyRunner
  | CPNode.lithologyRunner =>
      runnerStep st CREATE_PROJECT_SELECT_LITHOLOGY_TOOL CPNode.otherLayersRunner
  | CPNode.otherLayersRunner =>
      runnerStep st CREATE_PROJECT_SELECT_OTHER_LAYERS_TOOL CPNode.mainNode
  | CPNode.toolHandler => handlerStep outputs st
  | CPNode.finished => st

/-- Iterated subgraph walk. -/
def cpRun (prefill : Entries) (outputs : String → PVal) : Nat → CPState → CPState
  | 0, st => st
  | n + 1, st => cpRun prefill outputs n (cpStep prefill outputs st)

/-- Entry state of one create-project pipeline run (the subgraph is entered
at `create_project_main` with no pipeline-local `node_params`). -/
def cpInit : CPState :=
  { node := CPNode.mainNode
    nodeParams := []
    pendingTool := none
    callbackStash := none
    invoked := []
    emitted := [] }

/-- C8: a turn whose `avaliable_tools` is the empty list binds every
registered tool to the language model, while `avaliable_tools = None` binds
no tools at all (so the model cannot emit tool calls); the two bindings are
genuinely different because the registry is non-empty. -/
theorem C8_avaliable_tools_binding :
    set_tool_choice (some []) = registeredToolNames
    ∧ set_tool_choice none = []
    ∧ registeredToolNames ≠ []
    ∧ set_tool_choice none ≠ set_tool_choice (some []) := by
  refine ⟨rfl, rfl, ?_, ?_⟩ <;> decide

/-- C2 (counterexample): a message carrying two pending tool calls is
handled by `tool_handler_template` through `tool_calls[-1]`: the call it
honors is the second one (`tool_b`), not the first (`tool_a`) as the claim
states. -/
theorem C2_first_call_counterexample :
    (handlerSelectedToolCall
        [⟨"tool_a", []⟩, ⟨"tool_b", []⟩]).map ToolCallRec.name = some "tool_b"
    ∧ "tool_b" ≠ "tool_a" := by
  exact ⟨rfl, by decide⟩

/-- C2 (amended): the tool handler honors only the *last* tool call of the
message and discards the rest; since the chatbot router truncates a
multi-call proposal to its first call before delivery, a message routed
through the chatbot carries exactly one call, for which the handler's
choice coincides with the first call. -/
theorem C2_handler_honors_last_call :
    (∀ (calls : List ToolCallRec) (h : calls ≠ []),
        handlerSelectedToolCall calls = some (calls.getLast h))
    ∧ (∀ (calls : List ToolCallRec) (h : calls ≠ []),
        chatbotKeptToolCalls calls = [calls.head h]
        ∧ handlerSelectedToolCall (chatbotKeptToolCalls calls) =
            some (calls.head h)) := by
  constructor
  · intro calls h
    exact List.getLast?_eq_getLast calls h
  · intro calls h
    match calls with
    | c :: rest => exact ⟨rfl, rfl⟩

theorem C2_handler_honors_last_call_witness :
    handlerSelectedToolCall [⟨"tool_a", []⟩, ⟨"tool_b", []⟩] =
      some (([⟨"tool_a", []⟩, ⟨"tool_b", []⟩] : List ToolCallRec).getLast (by simp)) :=
  C2_handler_honors_last_call.1 [⟨"tool_a", []⟩, ⟨"tool_b", []⟩] (by simp)

/-- C9: the `node_params` merge is a deep merge: a dictionary entry
`A = {"y": 2}` merged with an incoming `A = {"x": 1}` yields the united
`A = {"y": 2, "x": 1}` rather than an overwrite of the whole entry; list
values are concatenated and scalar values are overwritten by the most
recent write. -/
theorem C9_node_params_merge_is_deep :
    (∀ (l r : Entries),
        (r.map Prod.fst).Nodup →
        lookupKey l "A" = some (PVal.vdict [("y", PVal.vint 2)]) →
        ("A", PVal.vdict [("x", PVal.vint 1)]) ∈ r →
        lookupKey (merge_dictionaries l r) "A" =
          some (PVal.vdict [("y", PVal.vint 2), ("x", PVal.vint 1)]))
    ∧ (∀ (l r : Entries) (k : String) (xs ys : List PVal),
        (r.map Prod.fst).Nodup →
        lookupKey l k = some (PVal.vlist xs) →
        (k, PVal.vlist ys) ∈ r →
        lookupKey (merge_dictionaries l r) k = some (PVal.vlist (xs ++ ys)))
    ∧ (∀ (l r : Entries) (k : String) (lv : PVal) (n : Int),
        (r.map Prod.fst).Nodup →
        lookupKey l k = some lv →
        (k, PVal.vint n) ∈ r →
        lookupKey (merge_dictionaries l r) k = some (PVal.vint n)) := by
  refine ⟨?_, ?_, ?_⟩
  · intro l r hnd hl hmem
    rw [lookupKey_merge_mem r l _ _ hnd hmem, hl]
    simp [mergeVals, merge_dictionaries, lookupKey, setKey]
  · intro l r k xs ys hnd hl hmem
    rw [lookupKey_merge_mem r l _ _ hnd hmem, hl]
    simp [mergeVals]
  · intro l r k lv n hnd hl hmem
    rw [lookupKey_merge_mem r l _ _ hnd hmem, hl]
    cases lv <;> simp [mergeVals]

theorem C9_node_params_merge_is_deep_witness :
    lookupKey
      (merge_dictionaries [("A", PVal.vdict [("y", PVal.vint 2)])]
        [("A", PVal.vdict [("x", PVal.vint 1)])]) "A" =
      some (PVal.vdict [("y", PVal.vint 2), ("x", PVal.vint 1)]) :=
  C9_node_params_merge_is_deep.1
    [("A", PVal.vdict [("y", PVal.vint 2)])]
    [("A", PVal.vdict [("x", PVal.vint 1)])]
    (by simp) (by simp [lookupKey]) (by simp)

/-- C10: merging a dictionary whose entry at `k` is the *empty* dictionary
over an existing non-empty sub-dictionary at `k` discards the existing
entries and leaves `k` bound to the empty dictionary (the `len(value) > 0`
guard routes this case to plain overwrite); moreover, in the
explicit-store rendering, `merge_dictionaries` writes through the left
argument's address and returns that same address, not a fresh
dictionary. -/
theorem C10_merge_empty_dict_overwrite_and_mutation :
    (∀ (l r : Entries) (k : String) (d : Entries),
        (r.map Prod.fst).Nodup →
        lookupKey l k = some (PVal.vdict d) → d ≠ [] →
        (k, PVal.vdict []) ∈ r →
        lookupKey (merge_dictionaries l r) k = some (PVal.vdict []))
    ∧ (∀ (fuel : Nat) (s : Store) (la ra : Nat) (out : Store × Nat),
        mergeHeap fuel s la ra = some out → out.2 = la) := by
  constructor
  · intro l r k d hnd hl _ hmem
    rw [lookupKey_merge_mem r l _ _ hnd hmem, hl]
    simp [mergeVals]
  · exact mergeHeap_returns_left_address

theorem C10_merge_empty_dict_overwrite_and_mutation_witness :
    lookupKey
      (merge_dictionaries [("k", PVal.vdict [("a", PVal.vint 1)])]
        [("k", PVal.vdict [])]) "k" = some (PVal.vdict [])
    ∧ ((([[], []] : Store), (0 : Nat)) : Store × Nat).2 = 0 :=
  ⟨C10_merge_empty_dict_overwrite_and_mutation.1
      [("k", PVal.vdict [("a", PVal.vint 1)])] [("k", PVal.vdict [])]
      "k" [("a", PVal.vint 1)]
      (by simp) (by simp [lookupKey]) (by simp) (by simp),
   C10_merge_empty_dict_overwrite_and_mutation.2 1 [[], []] 0 1 ([[], []], 0)
      (by simp [mergeHeap, mergeHeapItems])⟩

/-- C5: the layer registry is deduplicated by `src`: merging any update
into a registry with pairwise-distinct `src` fields preserves that
distinctness, merging a single layer whose `src` already exists leaves the
registry unchanged in length, and merging the update that
`SaferRainTool._execute` emits for an already-registered output file also
leaves the length unchanged. -/
theorem C5_layer_registry_dedup :
    (∀ (left : List LayerDesc) (l : LayerDesc),
        src_layer_exists left l.src = true →
        (merge_layer_registry left [l]).length = left.length)
    ∧ (∀ (left right : List LayerDesc),
        (left.map LayerDesc.src).Nodup →
        ((merge_layer_registry left right).map LayerDesc.src).Nodup)
    ∧ (∀ (registry : List LayerDesc) (l : LayerDesc),
        src_layer_exists registry l.src = true →
        (merge_layer_registry registry (saferRainRegistryUpdate registry l)).length
          = registry.length) := by
  have hone : ∀ (left : List LayerDesc) (l : LayerDesc),
      src_layer_exists left l.src = true →
      merge_layer_registry left [l] = left := by
    intro left l h
    simp [merge_layer_registry, h]
  refine ⟨fun left l h => by rw [hone left l h], ?_, ?_⟩
  · intro left right
    induction right generalizing left with
    | nil => intro h; simpa [merge_layer_registry] using h
    | cons hd rest ih =>
        intro h
        have hstep : merge_layer_registry left (hd :: rest) =
            merge_layer_registry
              (if src_layer_exists left hd.src then left else left ++ [hd]) rest := by
          simp only [merge_layer_registry, List.foldl_cons]
        rw [hstep]
        by_cases hex : src_layer_exists left hd.src
        · simpa [hex] using ih left h
        · have hnotmem : hd.src ∉ left.map LayerDesc.src := by
            intro hmem
            obtain ⟨e, hel, hes⟩ := List.mem_map.mp hmem
            exact hex (List.any_eq_true.mpr ⟨e, hel, by simp [hes]⟩)
          have : ((left ++ [hd]).map LayerDesc.src).Nodup := by
            rw [List.map_append, List.nodup_append]
            exact ⟨h, by simp, by simpa [List.disjoint_left] using hnotmem⟩
          simpa [hex] using ih (left ++ [hd]) this
  · intro registry l h
    simp [saferRainRegistryUpdate, h, merge_layer_registry]

theorem C5_layer_registry_dedup_witness :
    (merge_layer_registry
        [{ title := "t", description := "d", src := "s3://b/a.tif",
           ltype := "raster", metadata := [] }]
        [{ title := "t2", description := "d2", src := "s3://b/a.tif",
           ltype := "raster", metadata := [] }]).length =
      ([{ title := "t", description := "d", src := "s3://b/a.tif",
          ltype := "raster", metadata := [] }] : List LayerDesc).length :=
  C5_layer_registry_dedup.1 _ _ (by simp [src_layer_exists])

theorem floor_decimals_idem (q : ℚ) (d : Nat) :
    floor_decimals (floor_decimals q d) d = floor_decimals q d := by
  unfold floor_decimals
  rw [div_mul_cancel₀ _ (by positivity : ((10 : ℚ) ^ d) ≠ 0), Int.floor_intCast]

theorem ceil_decimals_idem (q : ℚ) (d : Nat) :
    ceil_decimals (ceil_decimals q d) d = ceil_decimals q d := by
  unfold ceil_decimals
  rw [div_mul_cancel₀ _ (by positivity : ((10 : ℚ) ^ d) ≠ 0), Int.ceil_intCast]

/-- C1: whenever the resolved arguments make some validation rule fail, the
underlying `_execute` action is never run and the call returns exactly the
first failing message; in particular the select-DTM tool invoked with
`area = None` and `dtm_file = None` fails with the "Area cordinates or
name" message of its second `area` rule, regardless of the confirmation
flags and of the model/filesystem oracles, with no execution event. -/
theorem C1_validation_precedes_execution :
    (∀ (Args Res : Type) (t : AgentToolModel Args Res) (ec oc : Bool)
        (args rargs : Args) (fl : Bool) (msg : String),
        t.infer args = some (rargs, fl) →
        t.validate rargs = some msg →
        (invokeTool t ec oc args).outcome = ToolOutcome.validationError msg
        ∧ ToolEvent.executeRun ∉ (invokeTool t ec oc args).events)
    ∧ (∀ (llmArea : String → AreaV) (isfile : String → Bool) (ec oc : Bool),
        (invokeTool (selectDTMToolModel llmArea isfile) ec oc
            { area := AreaV.anone, crs := none, dtm_file := none }).outcome =
          ToolOutcome.validationError
            "Area cordinates or name (and relative output CRS) must be provided if dtm_file is not specified."
        ∧ ToolEvent.executeRun ∉
            (invokeTool (selectDTMToolModel llmArea isfile) ec oc
              { area := AreaV.anone, crs := none, dtm_file := none }).events) := by
  constructor
  · intro Args Res t ec oc args rargs fl msg hinf hval
    constructor
    · simp [invokeTool, hinf, hval]
    · simp [invokeTool, hinf, hval]
  · intro llmArea isfile ec oc
    exact ⟨rfl, by simp [invokeTool, selectDTMToolModel, selectDTMInfer,
      selectDTMInferArea, round_bounding_box, selectDTMValidate,
      selectDTMValidationRules, firstRuleError]⟩

theorem C1_validation_precedes_execution_witness :
    (invokeTool (selectDTMToolModel (fun _ => AreaV.anone) (fun _ => false))
        true true { area := AreaV.anone, crs := none, dtm_file := none }).outcome
      = ToolOutcome.validationError
          "Area cordinates or name (and relative output CRS) must be provided if dtm_file is not specified."
    ∧ ToolEvent.executeRun ∉
        (invokeTool (selectDTMToolModel (fun _ => AreaV.anone) (fun _ => false))
          true true { area := AreaV.anone, crs := none, dtm_file := none }).events :=
  C1_validation_precedes_execution.1 SelectDTMArgs Entries
    (selectDTMToolModel (fun _ => AreaV.anone) (fun _ => false)) true true
    { area := AreaV.anone, crs := none, dtm_file := none }
    { area := AreaV.anone, crs := none, dtm_file := none } false
    "Area cordinates or name (and relative output CRS) must be provided if dtm_file is not specified."
    rfl rfl

/-- C6: for every terminal outcome of an invocation (inference error,
validation error, interrupt raised, or success), the `_on_tool_end` reset
runs exactly once, as the last event — never mid-call — and the two
confirmation flags observed right after the call equal the values the
tool's `_on_tool_end` declares; for the select-DTM tool those are
`execution_confirmed = False`, `output_confirmed = True`, and for the
geospatial-ops tool `execution_confirmed = True`,
`output_confirmed = False`. -/
theorem C6_reset_exactly_once :
    (∀ (Args Res : Type) (t : AgentToolModel Args Res) (ec oc : Bool) (args : Args),
        (invokeTool t ec oc args).events.count ToolEvent.onToolEndRun = 1
        ∧ (invokeTool t ec oc args).events.getLast? = some ToolEvent.onToolEndRun
        ∧ (invokeTool t ec oc args).execution_confirmed = t.onToolEndExec
        ∧ (invokeTool t ec oc args).output_confirmed = t.onToolEndOut)
    ∧ (∀ (llmArea : String → AreaV) (isfile : String → Bool),
        (selectDTMToolModel llmArea isfile).onToolEndExec = false
        ∧ (selectDTMToolModel llmArea isfile).onToolEndOut = true)
    ∧ (∀ (llmLayer : String → Option String) (userId : String)
        (codegen : String → String),
        (geospatialOpsToolModel llmLayer userId codegen).onToolEndExec = true
        ∧ (geospatialOpsToolModel llmLayer userId codegen).onToolEndOut = false) := by
  refine ⟨?_, fun _ _ => ⟨rfl, rfl⟩, fun _ _ _ => ⟨rfl, rfl⟩⟩
  intro Args Res t ec oc args
  unfold invokeTool
  cases hinf : t.infer args with
  | none => simp [List.count_cons]
  | some p =>
      obtain ⟨rargs, fl⟩ := p
      cases hval : t.validate rargs with
      | some m => simp [hval, List.count_cons]
      | none => cases ec <;> cases fl <;> cases oc <;>
          simp [hval, List.count_cons]

/-- C7 (counterexample): a fully specified select-DTM argument mapping (no
`None` fields) with `area = [12.25, 52, 14, 53]` is changed by the tool's
inference rules: the outward rounding of `infer_area` turns the first
coordinate into `12.2`, so inference does not return the mapping
unchanged. -/
theorem C7_inference_identity_counterexample :
    selectDTMInfer (fun _ => AreaV.anone)
        { area := AreaV.acoords [(49 : ℚ)/4, 52, 14, 53],
          crs := some "EPSG:4326", dtm_file := some "s3://bucket/dtm.tif" }
      = some ({ area := AreaV.acoords [(61 : ℚ)/5, 52, 14, 53],
                crs := some "EPSG:4326", dtm_file := some "s3://bucket/dtm.tif" }, false)
    ∧ ({ area := AreaV.acoords [(61 : ℚ)/5, 52, 14, 53],
         crs := some "EPSG:4326", dtm_file := some "s3://bucket/dtm.tif" } : SelectDTMArgs)
        ≠ { area := AreaV.acoords [(49 : ℚ)/4, 52, 14, 53],
            crs := some "EPSG:4326", dtm_file := some "s3://bucket/dtm.tif" } := by
  constructor
  · simp only [selectDTMInfer, selectDTMInferArea, round_bounding_box,
      Option.some.injEq, Prod.mk.injEq, SelectDTMArgs.mk.injEq,
      AreaV.acoords.injEq, List.cons.injEq, and_true, List.nil_eq]
    norm_num [floor_decimals, ceil_decimals]
  · simp only [ne_eq, SelectDTMArgs.mk.injEq, AreaV.acoords.injEq,
      List.cons.injEq]
    norm_num

/-- C7 (amended): inference is not the identity on fully specified argument
mappings — business rules still apply ("never to override an explicitly
supplied value unless the business rule says otherwise"): select-DTM
normalizes coordinate-list areas by outward rounding (so *re-running* its
inference on an already-inferred non-string mapping is a no-op and never
flips the confirmation flag), and safer-rain unconditionally rewrites
`water` into a bucket-namespaced path — always changing a supplied value —
and forces `mode` to `lambda`. -/
theorem C7_inference_normalization :
    (∀ (llmArea : String → AreaV) (args rargs : SelectDTMArgs) (fl : Bool),
        (∀ s, args.area ≠ AreaV.aname s) →
        selectDTMInfer llmArea args = some (rargs, fl) →
        fl = false ∧ selectDTMInfer llmArea rargs = some (rargs, false))
    ∧ (∀ (baseBucket : String) (args : SaferRainArgs) (w : String),
        args.water = some w →
        (saferRainInfer baseBucket args).water
            = some (baseBucket ++ "/saferrain-out/" ++ w)
        ∧ (saferRainInfer baseBucket args).mode = "lambda"
        ∧ baseBucket ++ "/saferrain-out/" ++ w ≠ w) := by
  constructor
  · intro llmArea args rargs fl hno hinf
    obtain ⟨a, crs, dtm⟩ := args
    cases a with
    | aname s => exact absurd rfl (hno s)
    | anone =>
        have h0 : selectDTMInfer llmArea
            { area := AreaV.anone, crs := crs, dtm_file := dtm } =
            some ({ area := AreaV.anone, crs := crs, dtm_file := dtm }, false) := rfl
        rw [h0] at hinf
        obtain ⟨hargs, hfl⟩ := Prod.mk.injEq .. ▸ Option.some.inj hinf
        subst hargs
        subst hfl
        exact ⟨rfl, rfl⟩
    | acoords xs =>
        match xs with
        | [] => exact absurd hinf (by simp [selectDTMInfer, selectDTMInferArea,
            round_bounding_box])
        | [x0] => exact absurd hinf (by simp [selectDTMInfer, selectDTMInferArea,
            round_bounding_box])
        | [x0, x1] => exact absurd hinf (by simp [selectDTMInfer, selectDTMInferArea,
            round_bounding_box])
        | [x0, x1, x2] => exact absurd hinf (by simp [selectDTMInfer, selectDTMInferArea,
            round_bounding_box])
        | x0 :: x1 :: x2 :: x3 :: rest =>
            have h0 : selectDTMInfer llmArea
                { area := AreaV.acoords (x0 :: x1 :: x2 :: x3 :: rest),
                  crs := crs, dtm_file := dtm } =
                some ({ area := AreaV.acoords
                          [floor_decimals x0 1, floor_decimals x1 1,
                           ceil_decimals x2 1, ceil_decimals x3 1],
                        crs := crs, dtm_file := dtm }, false) := rfl
            rw [h0] at hinf
            obtain ⟨hargs, hfl⟩ := Prod.mk.injEq .. ▸ Option.some.inj hinf
            subst hargs
            subst hfl
            refine ⟨rfl, ?_⟩
            simp [selectDTMInfer, selectDTMInferArea, round_bounding_box,
              floor_decimals_idem, ceil_decimals_idem]
  · intro baseBucket args w hw
    refine ⟨by simp [saferRainInfer, saferRainInferWater, hw], rfl, ?_⟩
    intro hc
    have hlen := congrArg String.length hc
    rw [String.length_append, String.length_append] at hlen
    have h15 : ("/saferrain-out/" : String).length = 15 := rfl
    omega

theorem C7_inference_normalization_witness :
    (false = false
      ∧ selectDTMInfer (fun _ => AreaV.anone)
          { area := AreaV.anone, crs := some "EPSG:4326", dtm_file := some "s3://b/d.tif" }
        = some ({ area := AreaV.anone, crs := some "EPSG:4326",
                  dtm_file := some "s3://b/d.tif" }, false))
    ∧ ((saferRainInfer "s3://saferplaces.co/api-data"
          { dem := "d.tif", rain := PVal.vint 10, water := some "out.tif",
            band := 1, to_band := 1, t_srs := none, mode := "batch" }).water
        = some ("s3://saferplaces.co/api-data" ++ "/saferrain-out/" ++ "out.tif")
      ∧ (saferRainInfer "s3://saferplaces.co/api-data"
          { dem := "d.tif", rain := PVal.vint 10, water := some "out.tif",
            band := 1, to_band := 1, t_srs := none, mode := "batch" }).mode = "lambda"
      ∧ "s3://saferplaces.co/api-data" ++ "/saferrain-out/" ++ "out.tif" ≠ "out.tif") :=
  ⟨C7_inference_normalization.1 (fun _ => AreaV.anone)
      { area := AreaV.anone, crs := some "EPSG:4326", dtm_file := some "s3://b/d.tif" }
      { area := AreaV.anone, crs := some "EPSG:4326", dtm_file := some "s3://b/d.tif" }
      false (fun _ h => AreaV.noConfusion h) rfl,
   C7_inference_normalization.2 "s3://saferplaces.co/api-data"
      { dem := "d.tif", rain := PVal.vint 10, water := some "out.tif",
        band := 1, to_band := 1, t_srs := none, mode := "batch" } "out.tif" rfl⟩

/-- C3: on a non-200 response the source *builds* the claimed
`Failed to execute Safer Rain API: <status> - <body>` error but does not
return it: execution falls through, the body is re-parsed as JSON, and the
error is overwritten by the `Unexpected response` message (with the system
message asking the router to explain and offer retry attached, and exactly
one HTTP request issued); when the non-200 body is not valid JSON the
`.json()` call raises instead.  The claimed error string is never the
result. -/
theorem C3_non200_error_message_clobbered :
    saferRainExecute
        { status := 500, text := "Internal Server Error",
          jsonBody := some [("detail", "boom")] } [] "dem: d.tif, rain: 10.0"
      = some { toolResponseError :=
                 some "Unexpected response from Safer Rain API: \x7b'detail': 'boom'\x7d"
               toolResponseBody := none
               updateMessages :=
                 ["An error occurred while executing the Safer Rain tool. Explain the error to the user and then ask him if he wants to retry or not."]
               updateRegistry := none
               httpRequests := 1 }
    ∧ ("Unexpected response from Safer Rain API: \x7b'detail': 'boom'\x7d" : String)
        ≠ "Failed to execute Safer Rain API: 500 - Internal Server Error"
    ∧ saferRainExecute
        { status := 500, text := "Internal Server Error", jsonBody := none } [] ""
      = none := by
  refine ⟨rfl, by decide, rfl⟩

theorem lookupKey_singleton_other (k0 key : String) (v : PVal) (h : k0 ≠ key) :
    lookupKey [(k0, v)] key = none := by
  simp [lookupKey, h]

theorem lookupKey_cons_other (k0 key : String) (v : PVal) (rest : Entries)
    (h : k0 ≠ key) : lookupKey ((k0, v) :: rest) key = lookupKey rest key := by
  simp [lookupKey, h]

theorem lookupMain_pair_none (np : Entries) (nn t : String) (o : PVal)
    (h : lookupKey np CREATE_PROJECT_MAIN = none) :
    lookupKey
        (merge_dictionaries (merge_dictionaries np (handlerDirective nn))
          (mainStashUpdate t o)) CREATE_PROJECT_MAIN
      = some (PVal.vdict [("tool_outputs", PVal.vdict [(t, o)])]) := by
  have h2 : lookupKey (merge_dictionaries np (handlerDirective nn))
      CREATE_PROJECT_MAIN = none := by
    rw [show handlerDirective nn =
        [(CREATE_PROJECT_TOOL_HANDLER, PVal.vdict [("next_node", PVal.vstr nn)])]
        from rfl,
      lookup_merge_single_other _ _ _ _ (by decide), h]
  rw [show mainStashUpdate t o =
      [(CREATE_PROJECT_MAIN, PVal.vdict [("tool_outputs", PVal.vdict [(t, o)])])]
      from rfl,
    lookup_merge_single_new _ _ _ h2]

theorem lookupMain_pair_dict (np : Entries) (nn t : String) (o : PVal)
    (m : Entries)
    (h : lookupKey np CREATE_PROJECT_MAIN = some (PVal.vdict m)) :
    lookupKey
        (merge_dictionaries (merge_dictionaries np (handlerDirective nn))
          (mainStashUpdate t o)) CREATE_PROJECT_MAIN
      = some (PVal.vdict
          (merge_dictionaries m [("tool_outputs", PVal.vdict [(t, o)])])) := by
  have h2 : lookupKey (merge_dictionaries np (handlerDirective nn))
      CREATE_PROJECT_MAIN = some (PVal.vdict m) := by
    rw [show handlerDirective nn =
        [(CREATE_PROJECT_TOOL_HANDLER, PVal.vdict [("next_node", PVal.vstr nn)])]
        from rfl,
      lookup_merge_single_other _ _ _ _ (by decide), h]
  rw [show mainStashUpdate t o =
      [(CREATE_PROJECT_MAIN, PVal.vdict [("tool_outputs", PVal.vdict [(t, o)])])]
      from rfl,
    lookup_merge_single_dict _ _ _ _ h2 (by simp)]

theorem toolOutputs_accum (d : Entries) (t : String) (o : PVal)
    (h : lookupKey d t = none) :
    merge_dictionaries [("tool_outputs", PVal.vdict d)]
        [("tool_outputs", PVal.vdict [(t, o)])]
      = [("tool_outputs", PVal.vdict (d ++ [(t, o)]))] := by
  rw [merge_into_singleton_dict, merge_append_new _ _ _ h]

theorem cpRun_succ (prefill : Entries) (outputs : String → PVal) (n : Nat)
    (st : CPState) :
    cpRun prefill outputs (n + 1) st =
      cpStep prefill outputs (cpRun prefill outputs n st) := by
  induction n generalizing st with
  | zero => rfl
  | succ m ih =>
      rw [show cpRun prefill outputs (m + 2) st =
          cpRun prefill outputs (m + 1) (cpStep prefill outputs st) from rfl,
        ih,
        show cpRun prefill outputs (m + 1) st =
          cpRun prefill outputs m (cpStep prefill outputs st) from rfl]

/-- `node_params` contents after the first `create_project_main` visit
(the auxiliary-model prefill merged into the empty pipeline-local state). -/
def cpNp1 (prefill : Entries) : Entries := merge_dictionaries [] prefill

/-- `node_params` after the DTM runner/handler pair. -/
def cpNp3 (prefill : Entries) (outputs : String → PVal) : Entries :=
  merge_dictionaries
    (merge_dictionaries (cpNp1 prefill)
      (handlerDirective (cpNodeName CPNode.buildingsRunner)))
    (mainStashUpdate CREATE_PROJECT_SELECT_DTM_TOOL
      (outputs CREATE_PROJECT_SELECT_DTM_TOOL))

/-- `node_params` after the Buildings runner/handler pair. -/
def cpNp5 (prefill : Entries) (outputs : String → PVal) : Entries :=
  merge_dictionaries
    (merge_dictionaries (cpNp3 prefill outputs)
      (handlerDirective (cpNodeName CPNode.infiltrationRunner)))
    (mainStashUpdate CREATE_PROJECT_SELECT_BUILDINGS_TOOL
      (outputs CREATE_PROJECT_SELECT_BUILDINGS_TOOL))

/-- `node_params` after the Infiltration runner/handler pair. -/
def cpNp7 (prefill : Entries) (outputs : String → PVal) : Entries :=
  merge_dictionaries
    (merge_dictionaries (cpNp5 prefill outputs)
      (handlerDirective (cpNodeName CPNode.lithologyRunner)))
    (mainStashUpdate CREATE_PROJECT_SELECT_INFILTRATION_TOOL
      (outputs CREATE_PROJECT_SELECT_INFILTRATION_TOOL))

/-- `node_params` after the Lithology runner/handler pair. -/
def cpNp9 (prefill : Entries) (outputs : String → PVal) : Entries :=
  merge_dictionaries
    (merge_dictionaries (cpNp7 prefill outputs)
      (handlerDirective (cpNodeName CPNode.otherLayersRunner)))
    (mainStashUpdate CREATE_PROJECT_SELECT_LITHOLOGY_TOOL
      (outputs CREATE_PROJECT_SELECT_LITHOLOGY_TOOL))

/-- `node_params` after the OtherLayers runner/handler pair. -/
def cpNp11 (prefill : Entries) (outputs : String → PVal) : Entries :=
  merge_dictionaries
    (merge_dictionaries (cpNp9 prefill outputs)
      (handlerDirective (cpNodeName CPNode.mainNode)))
    (mainStashUpdate CREATE_PROJECT_SELECT_OTHER_LAYERS_TOOL
      (outputs CREATE_PROJECT_SELECT_OTHER_LAYERS_TOOL))

theorem cpRun_eleven (prefill : Entries) (outputs : String → PVal) :
    cpRun prefill outputs 11 cpInit =
      { node := CPNode.mainNode
        nodeParams := cpNp11 prefill outputs
        pendingTool := none
        callbackStash := some (CREATE_PROJECT_SELECT_OTHER_LAYERS_TOOL, CPNode.mainNode)
        invoked := [CREATE_PROJECT_SELECT_DTM_TOOL,
                    CREATE_PROJECT_SELECT_BUILDINGS_TOOL,
                    CREATE_PROJECT_SELECT_INFILTRATION_TOOL,
                    CREATE_PROJECT_SELECT_LITHOLOGY_TOOL,
                    CREATE_PROJECT_SELECT_OTHER_LAYERS_TOOL]
        emitted := [] } := rfl

theorem cpNp11_lookup (prefill : Entries) (outputs : String → PVal)
    (hmain : CREATE_PROJECT_MAIN ∉ prefill.map Prod.fst) :
    lookupKey (cpNp11 prefill outputs) CREATE_PROJECT_MAIN =
      some (PVal.vdict [("tool_outputs", PVal.vdict
        [(CREATE_PROJECT_SELECT_DTM_TOOL,
          outputs CREATE_PROJECT_SELECT_DTM_TOOL),
         (CREATE_PROJECT_SELECT_BUILDINGS_TOOL,
          outputs CREATE_PROJECT_SELECT_BUILDINGS_TOOL),
         (CREATE_PROJECT_SELECT_INFILTRATION_TOOL,
          outputs CREATE_PROJECT_SELECT_INFILTRATION_TOOL),
         (CREATE_PROJECT_SELECT_LITHOLOGY_TOOL,
          outputs CREATE_PROJECT_SELECT_LITHOLOGY_TOOL),
         (CREATE_PROJECT_SELECT_OTHER_LAYERS_TOOL,
          outputs CREATE_PROJECT_SELECT_OTHER_LAYERS_TOOL)])]) := by
  have f1 : lookupKey (cpNp1 prefill) CREATE_PROJECT_MAIN = none := by
    unfold cpNp1
    rw [lookupKey_merge_not_mem prefill [] _ hmain]
    rfl
  have f3 : lookupKey (cpNp3 prefill outputs) CREATE_PROJECT_MAIN =
      some (PVal.vdict [("tool_outputs", PVal.vdict
        [(CREATE_PROJECT_SELECT_DTM_TOOL,
          outputs CREATE_PROJECT_SELECT_DTM_TOOL)])]) := by
    unfold cpNp3
    exact lookupMain_pair_none _ _ _ _ f1
  have f5 : lookupKey (cpNp5 prefill outputs) CREATE_PROJECT_MAIN =
      some (PVal.vdict [("tool_outputs", PVal.vdict
        [(CREATE_PROJECT_SELECT_DTM_TOOL,
          outputs CREATE_PROJECT_SELECT_DTM_TOOL),
         (CREATE_PROJECT_SELECT_BUILDINGS_TOOL,
          outputs CREATE_PROJECT_SELECT_BUILDINGS_TOOL)])]) := by
    unfold cpNp5
    rw [lookupMain_pair_dict _ _ _ _ _ f3,
      toolOutputs_accum _ _ _ (lookupKey_singleton_other _ _ _ (by decide))]
    simp
  have f7 : lookupKey (cpNp7 prefill outputs) CREATE_PROJECT_MAIN =
      some (PVal.vdict [("tool_outputs", PVal.vdict
        [(CREATE_PROJECT_SELECT_DTM_TOOL,
          outputs CREATE_PROJECT_SELECT_DTM_TOOL),
         (CREATE_PROJECT_SELECT_BUILDINGS_TOOL,
          outputs CREATE_PROJECT_SELECT_BUILDINGS_TOOL),
         (CREATE_PROJECT_SELECT_INFILTRATION_TOOL,
          outputs CREATE_PROJECT_SELECT_INFILTRATION_TOOL)])]) := by
    unfold cpNp7
    rw [lookupMain_pair_dict _ _ _ _ _ f5,
      toolOutputs_accum _ _ _ (by
        rw [lookupKey_cons_other _ _ _ _ (by decide),
          lookupKey_singleton_other _ _ _ (by decide)])]
    simp
  have f9 : lookupKey (cpNp9 prefill outputs) CREATE_PROJECT_MAIN =
      some (PVal.vdict [("tool_outputs", PVal.vdict
        [(CREATE_PROJECT_SELECT_DTM_TOOL,
          outputs CREATE_PROJECT_SELECT_DTM_TOOL),
         (CREATE_PROJECT_SELECT_BUILDINGS_TOOL,
          outputs CREATE_PROJECT_SELECT_BUILDINGS_TOOL),
         (CREATE_PROJECT_SELECT_INFILTRATION_TOOL,
          outputs CREATE_PROJECT_SELECT_INFILTRATION_TOOL),
         (CREATE_PROJECT_SELECT_LITHOLOGY_TOOL,
          outputs CREATE_PROJECT_SELECT_LITHOLOGY_TOOL)])]) := by
    unfold cpNp9
    rw [lookupMain_pair_dict _ _ _ _ _ f7,
      toolOutputs_accum _ _ _ (by
        rw [lookupKey_cons_other _ _ _ _ (by decide),
          lookupKey_cons_other _ _ _ _ (by decide),
          lookupKey_singleton_other _ _ _ (by decide)])]
    simp
  unfold cpNp11
  rw [lookupMain_pair_dict _ _ _ _ _ f9,
    toolOutputs_accum _ _ _ (by
      rw [lookupKey_cons_other _ _ _ _ (by decide),
        lookupKey_cons_other _ _ _ _ (by decide),
        lookupKey_cons_other _ _ _ _ (by decide),
        lookupKey_singleton_other _ _ _ (by decide)])]
  simp

/-- C4: from the pipeline's entry at `create_project_main`, the sub-tools
are walked in the fixed order DTM → Buildings → Infiltration → Lithology →
OtherLayers; after twelve node steps the walk has terminated having emitted
exactly one consolidated tool-result, carrying the `tool_outputs` mapping
with all five sub-tool outputs (each stashed under
`node_params[create_project_main].tool_outputs` as it completed), and no
result is emitted at any earlier step (in particular none before all five
outputs are present). -/
theorem C4_create_project_pipeline (prefill : Entries) (outputs : String → PVal)
    (hmain : CREATE_PROJECT_MAIN ∉ prefill.map Prod.fst) :
    (cpRun prefill outputs 12 cpInit).node = CPNode.finished
    ∧ (cpRun prefill outputs 12 cpInit).invoked =
        [CREATE_PROJECT_SELECT_DTM_TOOL,
         CREATE_PROJECT_SELECT_BUILDINGS_TOOL,
         CREATE_PROJECT_SELECT_INFILTRATION_TOOL,
         CREATE_PROJECT_SELECT_LITHOLOGY_TOOL,
         CREATE_PROJECT_SELECT_OTHER_LAYERS_TOOL]
    ∧ (cpRun prefill outputs 12 cpInit).emitted =
        [PVal.vdict
          [(CREATE_PROJECT_SELECT_DTM_TOOL,
            outputs CREATE_PROJECT_SELECT_DTM_TOOL),
           (CREATE_PROJECT_SELECT_BUILDINGS_TOOL,
            outputs CREATE_PROJECT_SELECT_BUILDINGS_TOOL),
           (CREATE_PROJECT_SELECT_INFILTRATION_TOOL,
            outputs CREATE_PROJECT_SELECT_INFILTRATION_TOOL),
           (CREATE_PROJECT_SELECT_LITHOLOGY_TOOL,
            outputs CREATE_PROJECT_SELECT_LITHOLOGY_TOOL),
           (CREATE_PROJECT_SELECT_OTHER_LAYERS_TOOL,
            outputs CREATE_PROJECT_SELECT_OTHER_LAYERS_TOOL)]]
    ∧ (∀ n : Nat, n ≤ 11 → (cpRun prefill outputs n cpInit).emitted = []) := by
  have h12 : cpRun prefill outputs 12 cpInit =
      cpStep prefill outputs (cpRun prefill outputs 11 cpInit) :=
    cpRun_succ prefill outputs 11 cpInit
  have hlook := cpNp11_lookup prefill outputs hmain
  have hstep : cpStep prefill outputs (cpRun prefill outputs 11 cpInit) =
      { node := CPNode.finished
        nodeParams := merge_dictionaries (cpNp11 prefill outputs) []
        pendingTool := none
        callbackStash := some (CREATE_PROJECT_SELECT_OTHER_LAYERS_TOOL, CPNode.mainNode)
        invoked := [CREATE_PROJECT_SELECT_DTM_TOOL,
                    CREATE_PROJECT_SELECT_BUILDINGS_TOOL,
                    CREATE_PROJECT_SELECT_INFILTRATION_TOOL,
                    CREATE_PROJECT_SELECT_LITHOLOGY_TOOL,
                    CREATE_PROJECT_SELECT_OTHER_LAYERS_TOOL]
        emitted := [PVal.vdict
          [(CREATE_PROJECT_SELECT_DTM_TOOL,
            outputs CREATE_PROJECT_SELECT_DTM_TOOL),
           (CREATE_PROJECT_SELECT_BUILDINGS_TOOL,
            outputs CREATE_PROJECT_SELECT_BUILDINGS_TOOL),
           (CREATE_PROJECT_SELECT_INFILTRATION_TOOL,
            outputs CREATE_PROJECT_SELECT_INFILTRATION_TOOL),
           (CREATE_PROJECT_SELECT_LITHOLOGY_TOOL,
            outputs CREATE_PROJECT_SELECT_LITHOLOGY_TOOL),
           (CREATE_PROJECT_SELECT_OTHER_LAYERS_TOOL,
            outputs CREATE_PROJECT_SELECT_OTHER_LAYERS_TOOL)]] } := by
    rw [cpRun_eleven]
    show mainStep prefill _ = _
    unfold mainStep
    simp only [hlook, lookupKey]
    rfl
  refine ⟨?_, ?_, ?_, ?_⟩
  · rw [h12, hstep]
  · rw [h12, hstep]
  · rw [h12, hstep]
  · intro n hn
    interval_cases n <;> rfl

theorem C4_create_project_pipeline_witness :
    (cpRun [] (fun _ => PVal.vnone) 12 cpInit).node = CPNode.finished
    ∧ (cpRun [] (fun _ => PVal.vnone) 12 cpInit).invoked =
        [CREATE_PROJECT_SELECT_DTM_TOOL,
         CREATE_PROJECT_SELECT_BUILDINGS_TOOL,
         CREATE_PROJECT_SELECT_INFILTRATION_TOOL,
         CREATE_PROJECT_SELECT_LITHOLOGY_TOOL,
         CREATE_PROJECT_SELECT_OTHER_LAYERS_TOOL]
    ∧ (cpRun [] (fun _ => PVal.vnone) 12 cpInit).emitted =
        [PVal.vdict
          [(CREATE_PROJECT_SELECT_DTM_TOOL, PVal.vnone),
           (CREATE_PROJECT_SELECT_BUILDINGS_TOOL, PVal.vnone),
           (CREATE_PROJECT_SELECT_INFILTRATION_TOOL, PVal.vnone),
           (CREATE_PROJECT_SELECT_LITHOLOGY_TOOL, PVal.vnone),
           (CREATE_PROJECT_SELECT_OTHER_LAYERS_TOOL, PVal.vnone)]]
    ∧ (∀ n : Nat, n ≤ 11 → (cpRun [] (fun _ => PVal.vnone) n cpInit).emitted = []) :=
  C4_create_project_pipeline [] (fun _ => PVal.vnone) (by simp)
